import Mathlib

/-!
Shallow embedding of the emysound feeder pipeline.

The program polls an HLS audio manifest, filters newly listed segments by
sequence number, parses the embedded title metadata of each segment,
classifies it, downloads the audio, deduplicates it against an external
fingerprint service and persists audio, metadata and match records.

The definitions below mirror the Rust sources (src/main.rs and
src/storage/audio.rs).  External collaborators (the regex, chrono, url,
uuid, http and hls_m3u8 crates, the emysound service, and the sqlite-backed
metadata and matches stores whose modules are not part of the sources) are
modelled explicitly; each such model carries a comment saying what it
stands for.
-/

/-! ## Segment number filter (src/main.rs lines 295-317) -/

structure SegmentNumberFilter where
  last_seen_number : Nat
deriving DecidableEq

/-- SegmentNumberFilter::new establishes the initial watermark 0. -/
def SegmentNumberFilter.new : SegmentNumberFilter :=
  { last_seen_number := 0 }

/-- need_download from the SegmentDownloadFilter impl for SegmentNumberFilter
(src/main.rs lines 307-317).  The Rust method mutates the filter in place;
here the updated filter is returned next to the decision. -/
def SegmentNumberFilter.need_download (f : SegmentNumberFilter) (number : Nat) :
    Bool × SegmentNumberFilter :=
  if number ≤ f.last_seen_number then (false, f)
  else (true, { last_seen_number := number })

/-- Runs the filter over the segment numbers listed by successive manifest
fetches (flattened into one list), in order, returning the accepted numbers
and the final filter state. -/
def runFilter (f : SegmentNumberFilter) : List Nat → List Nat × SegmentNumberFilter
  | [] => ([], f)
  | n :: ns =>
    let r := f.need_download n
    let rest := runFilter r.2 ns
    (if r.1 then n :: rest.1 else rest.1, rest.2)

/-! ## Content kinds and parsed segment metadata (src/main.rs lines 319-391, 443-471) -/

inductive SuggestedSegmentContentKind where
  | none
  | talk
  | advertisement
  | music
deriving DecidableEq

/-- Modelled from the spec: AudioKind lives in the storage module, which is
not among the sources; the spec (section 3, MetadataRecord / ContentKind)
enumerates Unknown, Talk, Advertisement, Music. -/
inductive AudioKind where
  | unknown
  | talk
  | advertisement
  | music
deriving DecidableEq

/-- From SuggestedSegmentContentKind for AudioKind (src/main.rs lines 462-471). -/
def AudioKind.ofSuggested : SuggestedSegmentContentKind → AudioKind
  | .none => .unknown
  | .talk => .talk
  | .advertisement => .advertisement
  | .music => .music

/-- KostaRadioSegmentInfo (src/main.rs lines 319-336).
Rust Duration is represented as a count of nanoseconds, so
Duration::new(90, 0) is 90000000000.  The amg_artwork_url field keeps the
captured text when the url crate accepts it, and the spot_instance_id field
keeps the captured text when the uuid crate accepts it; only presence is
ever inspected. -/
structure KostaRadioSegmentInfo where
  title : String
  artist : String
  song_spot : Char
  media_base_id : Int
  itunes_track_id : Int
  amg_track_id : Int
  amg_artist_id : Int
  ta_id : Int
  tp_id : Int
  cartcut_id : Int
  amg_artwork_url : Option String
  length : Nat
  uns_id : Int
  spot_instance_id : Option String
deriving DecidableEq

/-- is_music (src/main.rs lines 340-348). -/
def KostaRadioSegmentInfo.is_music (i : KostaRadioSegmentInfo) : Bool :=
  (i.song_spot == 'M' || i.song_spot == 'F')
    && decide (90000000000 < i.length)
    && (decide (0 < i.media_base_id)
        || decide (0 < i.itunes_track_id)
        || (decide (0 < i.amg_artist_id) && decide (0 < i.amg_track_id))
        || decide (0 < i.tp_id)
        || i.amg_artwork_url.isSome)

/-- is_talk (src/main.rs lines 350-362). -/
def KostaRadioSegmentInfo.is_talk (i : KostaRadioSegmentInfo) : Bool :=
  (i.song_spot == 'T')
    && (i.media_base_id == 0)
    && (i.itunes_track_id == 0)
    && (i.amg_artist_id == 0)
    && (i.amg_track_id == 0)
    && (i.ta_id == 0)
    && (i.tp_id == 0)
    && i.amg_artwork_url.isNone
    && i.spot_instance_id.isNone
    && (i.length == 0)

/-- is_advertisment (src/main.rs lines 364-377; source spelling kept). -/
def KostaRadioSegmentInfo.is_advertisment (i : KostaRadioSegmentInfo) : Bool :=
  (i.song_spot == 'F')
    && (i.media_base_id == 0)
    && (i.itunes_track_id == 0)
    && (i.amg_artist_id == 0)
    && (i.amg_track_id == -1)
    && (i.ta_id == 0)
    && (i.tp_id == 0)
    && (i.cartcut_id == 0)
    && i.amg_artwork_url.isNone
    && i.spot_instance_id.isSome

/-- suggested_content_kind (src/main.rs lines 379-390). -/
def KostaRadioSegmentInfo.suggested_content_kind (i : KostaRadioSegmentInfo) :
    SuggestedSegmentContentKind :=
  if i.is_music then .music
  else if i.is_talk then .talk
  else if i.is_advertisment then .advertisement
  else .none

/-! ## The metadata grammar (src/main.rs lines 393-429)

TryFrom for a &str builds a KostaRadioSegmentInfo by running the regex

  (?:offset=\d+,)?title="(.+?)",artist="(.+?)",url="song_spot=\\"(\w)\\"
  MediaBaseId=\\"(-?\d+)\\" itunesTrackId=\\"(-?\d+)\\" amgTrackId=\\"(-?\d+)\\"
  amgArtistId=\\"(-?\d+)\\" TAID=\\"(-?\d+)\\" TPID=\\"(-?\d+)\\"
  cartcutId=\\"(-?\d+)\\" amgArtworkURL=\\"(.*?)\\" length=\\"(\d\d:\d\d:\d\d)\\"
  unsID=\\"(-?\d+)\\" spotInstanceId=\\"(.+?)\\"""

with Regex::captures, which finds the leftmost match of the pattern inside
the text (the pattern is not anchored), and then converts the captured
tokens.  The matcher below is a direct backtracking implementation of this
one pattern: alternatives are tried in the same order a backtracking regex
engine tries them (positions left to right; at each position the optional
offset group present before absent; each lazy capture shortest first), so
it finds the same match the regex crate finds.  The character classes \d
and \w are modelled at their ASCII core (the Unicode extras of the regex
crate never let the later integer conversions succeed on non-ASCII digits,
and no claim depends on non-ASCII word characters). -/

def isWordChar (c : Char) : Bool :=
  c.isAlphanum || c == '_'

/-- One capture token per regex group, in source order. -/
structure RawCaps where
  titleCap : List Char
  artistCap : List Char
  spotCap : List Char
  mediaBaseCap : List Char
  itunesCap : List Char
  amgTrackCap : List Char
  amgArtistCap : List Char
  taCap : List Char
  tpCap : List Char
  cartcutCap : List Char
  artworkCap : List Char
  lengthCap : List Char
  unsCap : List Char
  spotInstCap : List Char
deriving DecidableEq

/-- A successful match: the captures and the text remaining after the match. -/
def MatchRes : Type := RawCaps × List Char

/-- Consumes the literal lit from the front of s. -/
def dropLit : List Char → List Char → Option (List Char)
  | [], s => some s
  | _ :: _, [] => Option.none
  | a :: as, b :: bs => if a == b then dropLit as bs else Option.none

/-- Greedy run of ASCII digits, as the regex class \d inside \d+. -/
def takeDigits : List Char → List Char × List Char
  | [] => ([], [])
  | c :: cs =>
    if c.isDigit then
      let r := takeDigits cs
      (c :: r.1, r.2)
    else ([], c :: cs)

/-- Greedy match of -?\d+ returning the token and the rest.  In this pattern
every integer group is followed by a literal starting with a backslash, so
the greedy match never needs to give characters back. -/
def takeInt (s : List Char) : Option (List Char × List Char) :=
  match s with
  | '-' :: rest =>
    match takeDigits rest with
    | ([], _) => Option.none
    | (ds, r) => some ('-' :: ds, r)
  | _ =>
    match takeDigits s with
    | ([], _) => Option.none
    | (ds, r) => some (ds, r)

/-- Match of \d\d:\d\d:\d\d returning the token and the rest. -/
def takeTime : List Char → Option (List Char × List Char)
  | a :: b :: ':' :: c :: d :: ':' :: e :: f :: rest =>
    if a.isDigit && b.isDigit && c.isDigit && d.isDigit && e.isDigit && f.isDigit then
      some ([a, b, ':', c, d, ':', e, f], rest)
    else Option.none
  | _ => Option.none

/-- Backtracking lazy capture: the shortest capture (continuing from acc,
kept reversed) such that the terminator lit follows and the continuation k
succeeds on the text after the terminator.  The captured characters go
through the class "." of the regex crate, which excludes the newline. -/
def lazyCap (lit : List Char) (k : List Char → List Char → Option MatchRes) :
    List Char → List Char → Option MatchRes
  | acc, [] =>
    match dropLit lit [] with
    | some rest => k acc.reverse rest
    | Option.none => Option.none
  | acc, c :: cs =>
    match dropLit lit (c :: cs) with
    | some rest =>
      match k acc.reverse rest with
      | some r => some r
      | Option.none => if c == '\n' then Option.none else lazyCap lit k (c :: acc) cs
    | Option.none => if c == '\n' then Option.none else lazyCap lit k (c :: acc) cs

/-- Lazy one-or-more capture (.+?) up to lit. -/
def lazyCap1 (lit : List Char) (k : List Char → List Char → Option MatchRes)
    (s : List Char) : Option MatchRes :=
  match s with
  | [] => Option.none
  | c :: cs => if c == '\n' then Option.none else lazyCap lit k [c] cs

/-- Lazy zero-or-more capture (.*?) up to lit. -/
def lazyCap0 (lit : List Char) (k : List Char → List Char → Option MatchRes)
    (s : List Char) : Option MatchRes :=
  lazyCap lit k [] s

/-- Literal between the optional offset group and the title capture. -/
def litTitle : List Char := "title=\"".data

/-- Literal between the title and artist captures. -/
def litArtist : List Char := "\",artist=\"".data

/-- Literal between the artist and song_spot captures. -/
def litSongSpot : List Char := "\",url=\"song_spot=\\\"".data

/-- Literal before the MediaBaseId capture. -/
def litMediaBase : List Char := "\\\" MediaBaseId=\\\"".data

/-- Literal before the itunesTrackId capture. -/
def litItunes : List Char := "\\\" itunesTrackId=\\\"".data

/-- Literal before the amgTrackId capture. -/
def litAmgTrack : List Char := "\\\" amgTrackId=\\\"".data

/-- Literal before the amgArtistId capture. -/
def litAmgArtist : List Char := "\\\" amgArtistId=\\\"".data

/-- Literal before the TAID capture. -/
def litTa : List Char := "\\\" TAID=\\\"".data

/-- Literal before the TPID capture. -/
def litTp : List Char := "\\\" TPID=\\\"".data

/-- Literal before the cartcutId capture. -/
def litCartcut : List Char := "\\\" cartcutId=\\\"".data

/-- Literal before the amgArtworkURL capture. -/
def litArtwork : List Char := "\\\" amgArtworkURL=\\\"".data

/-- Literal before the length capture. -/
def litLength : List Char := "\\\" length=\\\"".data

/-- Literal before the unsID capture. -/
def litUns : List Char := "\\\" unsID=\\\"".data

/-- Literal before the spotInstanceId capture. -/
def litSpotInst : List Char := "\\\" spotInstanceId=\\\"".data

/-- Terminator of the whole pattern after the spotInstanceId capture. -/
def litEnd : List Char := "\\\"\"\"".data

/-- Start of the optional offset group. -/
def litOffset : List Char := "offset=".data

/-- The deterministic middle of the pattern, from MediaBaseId to the end,
given the first three captures. -/
def afterSpot (c1 c2 : List Char) (w : Char) (s0 : List Char) : Option MatchRes :=
  match dropLit litMediaBase s0 with
  | Option.none => Option.none
  | some s1 =>
    match takeInt s1 with
    | Option.none => Option.none
    | some (c4, s2) =>
      match dropLit litItunes s2 with
      | Option.none => Option.none
      | some s3 =>
        match takeInt s3 with
        | Option.none => Option.none
        | some (c5, s4) =>
          match dropLit litAmgTrack s4 with
          | Option.none => Option.none
          | some s5 =>
            match takeInt s5 with
            | Option.none => Option.none
            | some (c6, s6) =>
              match dropLit litAmgArtist s6 with
              | Option.none => Option.none
              | some s7 =>
                match takeInt s7 with
                | Option.none => Option.none
                | some (c7, s8) =>
                  match dropLit litTa s8 with
                  | Option.none => Option.none
                  | some s9 =>
                    match takeInt s9 with
                    | Option.none => Option.none
                    | some (c8, s10) =>
                      match dropLit litTp s10 with
                      | Option.none => Option.none
                      | some s11 =>
                        match takeInt s11 with
                        | Option.none => Option.none
                        | some (c9, s12) =>
                          match dropLit litCartcut s12 with
                          | Option.none => Option.none
                          | some s13 =>
                            match takeInt s13 with
                            | Option.none => Option.none
                            | some (c10, s14) =>
                              match dropLit litArtwork s14 with
                              | Option.none => Option.none
                              | some s15 =>
                                lazyCap0 litLength
                                  (fun c11 t0 =>
                                    match takeTime t0 with
                                    | Option.none => Option.none
                                    | some (c12, t1) =>
                                      match dropLit litUns t1 with
                                      | Option.none => Option.none
                                      | some t2 =>
                                        match takeInt t2 with
                                        | Option.none => Option.none
                                        | some (c13, t3) =>
                                          match dropLit litSpotInst t3 with
                                          | Option.none => Option.none
                                          | some t4 =>
                                            lazyCap1 litEnd
                                              (fun c14 rem =>
                                                some (⟨c1, c2, [w], c4, c5, c6, c7,
                                                  c8, c9, c10, c11, c12, c13, c14⟩, rem))
                                              t4)
                                  s15

/-- The pattern without the optional offset group, matched at the start of s. -/
def matchCore (s0 : List Char) : Option MatchRes :=
  match dropLit litTitle s0 with
  | Option.none => Option.none
  | some s1 =>
    lazyCap1 litArtist
      (fun c1 t0 =>
        lazyCap1 litSongSpot
          (fun c2 t1 =>
            match t1 with
            | [] => Option.none
            | w :: t2 => if isWordChar w then afterSpot c1 c2 w t2 else Option.none)
          t0)
      s1

/-- The full pattern matched at the start of s: the greedy optional group
offset=digits-comma is tried present first, absent second, as a
backtracking engine does. -/
def matchHere (s : List Char) : Option MatchRes :=
  let withOffset :=
    match dropLit litOffset s with
    | some r =>
      match takeDigits r with
      | ([], _) => Option.none
      | (_, r2) =>
        match r2 with
        | ',' :: r3 => matchCore r3
        | _ => Option.none
    | Option.none => Option.none
  match withOffset with
  | some r => some r
  | Option.none => matchCore s

/-- Leftmost match: positions are tried left to right, as Regex::captures
does on an unanchored pattern. -/
def searchMatch : List Char → Option MatchRes
  | [] => matchHere []
  | c :: cs =>
    match matchHere (c :: cs) with
    | some r => some r
    | Option.none => searchMatch cs

/-- Regex::captures of the pattern over the text: the fourteen captured
tokens of the leftmost match, when there is one. -/
def captures (value : String) : Option RawCaps :=
  match searchMatch value.data with
  | some r => some r.1
  | Option.none => Option.none

/-- Follows the spec words, for comparison with the source behaviour: the
text fully matches the grammar, that is, the pattern consumes the text from
the first character to the last. -/
def fullyMatchesGrammar (value : String) : Bool :=
  match matchHere value.data with
  | some (_, []) => true
  | _ => false

/-! ## Conversion of the captured tokens (src/main.rs lines 405-427) -/

/-- Digits to a natural number. -/
def digitsToNat : List Char → Nat → Nat
  | [], acc => acc
  | c :: cs, acc => digitsToNat cs (acc * 10 + (c.toNat - '0'.toNat))

/-- Models str::parse for i64: an optional sign, one or more ASCII digits,
and the value must fit the signed 64 bit range. -/
def parseI64 (tok : List Char) : Option Int :=
  match tok with
  | [] => Option.none
  | '-' :: ds =>
    if ds ≠ [] ∧ ds.all Char.isDigit then
      let n := digitsToNat ds 0
      if n ≤ 9223372036854775808 then some (-(n : Int)) else Option.none
    else Option.none
  | '+' :: ds =>
    if ds ≠ [] ∧ ds.all Char.isDigit then
      let n := digitsToNat ds 0
      if n ≤ 9223372036854775807 then some (n : Int) else Option.none
    else Option.none
  | ds =>
    if ds.all Char.isDigit then
      let n := digitsToNat ds 0
      if n ≤ 9223372036854775807 then some (n : Int) else Option.none
    else Option.none

/-- Models the length conversion: chrono NaiveTime::parse_from_str with
%H:%M:%S, followed by signed_duration_since midnight and the conversion to
a std Duration, expressed in nanoseconds.  The captured token always has
the shape dd:dd:dd; the parse fails when the hours exceed 23, the minutes
exceed 59 or the seconds exceed 59. -/
def parseLengthNanos (tok : List Char) : Option Nat :=
  match tok with
  | [h1, h2, ':', m1, m2, ':', s1, s2] =>
    if h1.isDigit && h2.isDigit && m1.isDigit && m2.isDigit && s1.isDigit && s2.isDigit then
      let h := digitsToNat [h1, h2] 0
      let m := digitsToNat [m1, m2] 0
      let s := digitsToNat [s1, s2] 0
      if h ≤ 23 ∧ m ≤ 59 ∧ s ≤ 59 then
        some ((h * 3600 + m * 60 + s) * 1000000000)
      else Option.none
    else Option.none
  | _ => Option.none

/-- Models the url crate acceptance test used for amgArtworkURL (only the
presence of the result is ever inspected): a nonempty ASCII alphabetic
scheme followed by a colon. -/
def urlParseOk (tok : List Char) : Bool :=
  match tok with
  | [] => false
  | c :: rest => c.isAlpha && rest.contains ':'

/-- A hexadecimal digit. -/
def isHexChar (c : Char) : Bool :=
  c.isDigit || ('a' ≤ c && c ≤ 'f') || ('A' ≤ c && c ≤ 'F')

/-- Models Uuid::try_parse for spotInstanceId (only the presence of the
result is ever inspected): the hyphenated 8-4-4-4-12 hexadecimal form. -/
def uuidParseOk (tok : List Char) : Bool :=
  tok.length == 36
    && (tok.take 8).all isHexChar
    && (tok.drop 8).take 1 == ['-']
    && ((tok.drop 9).take 4).all isHexChar
    && (tok.drop 13).take 1 == ['-']
    && ((tok.drop 14).take 4).all isHexChar
    && (tok.drop 18).take 1 == ['-']
    && ((tok.drop 19).take 4).all isHexChar
    && (tok.drop 23).take 1 == ['-']
    && (tok.drop 24).all isHexChar

/-- The conversion stage of TryFrom for a &str (src/main.rs lines 405-427):
every captured token is converted in field order; any conversion made with
the question mark operator propagates its failure, while the artwork url
and the instance identifier fall back to absence via ok(). -/
def convertCaps (caps : RawCaps) : Option KostaRadioSegmentInfo :=
  match caps.spotCap.head? with
  | Option.none => Option.none
  | some song_spot =>
    match parseI64 caps.mediaBaseCap with
    | Option.none => Option.none
    | some media_base_id =>
      match parseI64 caps.itunesCap with
      | Option.none => Option.none
      | some itunes_track_id =>
        match parseI64 caps.amgTrackCap with
        | Option.none => Option.none
        | some amg_track_id =>
          match parseI64 caps.amgArtistCap with
          | Option.none => Option.none
          | some amg_artist_id =>
            match parseI64 caps.taCap with
            | Option.none => Option.none
            | some ta_id =>
              match parseI64 caps.tpCap with
              | Option.none => Option.none
              | some tp_id =>
                match parseI64 caps.cartcutCap with
                | Option.none => Option.none
                | some cartcut_id =>
                  match parseLengthNanos caps.lengthCap with
                  | Option.none => Option.none
                  | some length =>
                    match parseI64 caps.unsCap with
                    | Option.none => Option.none
                    | some uns_id =>
                      some
                        { title := ⟨caps.titleCap⟩
                          artist := ⟨caps.artistCap⟩
                          song_spot := song_spot
                          media_base_id := media_base_id
                          itunes_track_id := itunes_track_id
                          amg_track_id := amg_track_id
                          amg_artist_id := amg_artist_id
                          ta_id := ta_id
                          tp_id := tp_id
                          cartcut_id := cartcut_id
                          amg_artwork_url :=
                            if urlParseOk caps.artworkCap then some ⟨caps.artworkCap⟩
                            else Option.none
                          length := length
                          uns_id := uns_id
                          spot_instance_id :=
                            if uuidParseOk caps.spotInstCap then some ⟨caps.spotInstCap⟩
                            else Option.none }

/-- TryFrom for a &str, continued: no captures means the TryFrom fails with
the Failed-to-match error; with captures every token conversion must
succeed. -/
def KostaRadioSegmentInfo.tryFrom (value : String) : Option KostaRadioSegmentInfo :=
  match captures value with
  | Option.none => Option.none
  | some caps => convertCaps caps

/-! ## Building the download candidate set (src/main.rs lines 68-130) -/

/-- The ad insertion marker looked for in a title that fails the grammar. -/
def adMarker : String := "adContext=".data.asString

/-- The fixed sentinel used for both artist and title of such a segment. -/
def advertSentinel : String := "Advertisement".data.asString

/-- Is the needle a contiguous substring of s, as str::contains. -/
def containsSub (needle : List Char) : List Char → Bool
  | [] => (dropLit needle []).isSome
  | c :: cs => (dropLit needle (c :: cs)).isSome || containsSub needle cs

/-- str::contains on strings. -/
def strContains (s pat : String) : Bool :=
  containsSub pat.data s.data

/-- SegmentDownloadInfo (src/main.rs lines 253-259) without the url, which
is only used to fetch the bytes and to build the log filename. -/
structure SegmentDownloadInfo where
  artist : String
  title : String
  kind : SuggestedSegmentContentKind
deriving DecidableEq

/-- The per-segment candidate decision of the filter_map closure
(src/main.rs lines 71-130), for a segment that already passed the number
filter.  urlOk tells whether the url crate accepts the segment uri (the
closure drops the segment otherwise before looking at the metadata).  On a
parsed title the segment is kept whatever the suggested kind; on a title
failing the grammar it is kept as an advertisement exactly when it contains
the marker; a segment without a title is dropped. -/
def segmentDecision (urlOk : Bool) (title? : Option String) : Option SegmentDownloadInfo :=
  if urlOk then
    match title? with
    | some t =>
      match KostaRadioSegmentInfo.tryFrom t with
      | some info => some { artist := info.artist, title := info.title,
                            kind := info.suggested_content_kind }
      | Option.none =>
        if strContains t adMarker then
          some { artist := advertSentinel, title := advertSentinel,
                 kind := .advertisement }
        else Option.none
    | Option.none => Option.none
  else Option.none

/-! ## The segment downloader (src/main.rs lines 225-251) -/

/-- An HTTP response for the downloader: the status code, the raw bytes of
the content-type header when the header is present, and the body bytes when
reading the body succeeds.  Header values are byte sequences on the wire;
http HeaderValue::to_str only accepts visible ASCII. -/
structure HttpResponse where
  status : Nat
  content_type : Option (List Nat)
  body : Option (List Nat)
deriving DecidableEq

/-- A visible ASCII byte (or horizontal tab), as http is_visible_ascii. -/
def isVisibleAscii (b : Nat) : Bool :=
  (32 ≤ b && b < 127) || b == 9

/-- Models http HeaderValue::to_str: succeeds exactly when every byte is
visible ASCII, yielding the corresponding character string. -/
def headerToStr (bs : List Nat) : Option String :=
  if bs.all isVisibleAscii then some (bs.map Char.ofNat).asString else Option.none

inductive DownloadError where
  | transport
  | noContentType
  | contentTypeNotAscii
  | bodyRead
deriving DecidableEq

/-- download (src/main.rs lines 225-251): a transport failure is an error;
the content-type header is required and must convert to a string; then the
body bytes are read.  The HTTP status of the response is never inspected.
The argument is Option.none when the transport fails before producing a
response. -/
def download (resp : Option HttpResponse) : Except DownloadError (String × List Nat) :=
  match resp with
  | Option.none => .error .transport
  | some r =>
    match r.content_type with
    | Option.none => .error .noContentType
    | some bs =>
      match headerToStr bs with
      | Option.none => .error .contentTypeNotAscii
      | some ct =>
        match r.body with
        | Option.none => .error .bodyRead
        | some b => .ok (ct, b)

/-! ## One iteration of the poll loop, seen from the manifest response
(src/main.rs lines 56-217) -/

/-- The exact content type required of the playlist response. -/
def playlistContentType : String :=
  "application/vnd.apple.mpegurl; charset=UTF-8".data.asString

/-- What one loop iteration does with the manifest response, before any
segment work. -/
inductive CycleOutcome where
  /-- A non-OK status reaches the bail, or a question mark operator fails:
  main returns an error and the process terminates. -/
  | fatal
  /-- Both content-type tests fall through without an else: the iteration
  ends with no segment processed and no sleep, and the loop refetches. -/
  | skipRefetch
  /-- The playlist is parsed, the segment batch is processed and the
  process sleeps before the next fetch. -/
  | processedAndSlept
deriving DecidableEq

/-- The dispatch of one loop iteration on the manifest response status and
content-type header (src/main.rs lines 59-65 and 207-216): status 200 with
the exact content type runs the cycle body and sleeps; status 200 with the
header absent, or present with a different visible-ASCII value, skips both;
a header that is not visible ASCII makes to_str fail under a question mark,
which is fatal; any other status is fatal. -/
def cycleStep (status : Nat) (contentType : Option (List Nat)) : CycleOutcome :=
  if status == 200 then
    match contentType with
    | Option.none => .skipRefetch
    | some bs =>
      match headerToStr bs with
      | Option.none => .fatal
      | some s => if s == playlistContentType then .processedAndSlept else .skipRefetch
  else .fatal

/-! ## The sleep between cycles (src/main.rs line 207) -/

/-- The playlist data the sleep depends on: all durations in nanoseconds.
target_duration carries the EXT-X-TARGETDURATION value advertised by the
manifest; segment_durations the EXTINF duration of every listed segment. -/
structure MediaPlaylist where
  target_duration : Nat
  segment_durations : List Nat
deriving DecidableEq

/-- Models hls_m3u8 MediaPlaylist::duration, which computes the duration of
the playlist by adding the durations of its segments together. -/
def MediaPlaylist.duration (p : MediaPlaylist) : Nat :=
  p.segment_durations.foldr (fun a b => a + b) 0

/-- tokio::time::sleep(m3u8.duration() / 2): dividing a Rust Duration by 2
halves its nanosecond count. -/
def sleepNanos (p : MediaPlaylist) : Nat :=
  p.duration / 2

/-! ## The dedup decision workflow (src/main.rs lines 132-205)

The emysound and storage modules are not among the sources; their record
shapes are modelled from the spec (sections 3, 4.4, 4.5 and 6): a query
returns a set of matches carrying matched id, optional artist and title,
and a score; a match record carries matched id, timestamp and score; a
metadata record carries id, timestamp, kind, artist and title.  Identifiers
and timestamps are represented by natural numbers and the score is kept
opaque as a natural number. -/

/-- Modelled from the spec: emysound QueryResult (spec section 6,
FingerprintGateway). -/
structure QueryResult where
  id : Nat
  artist : Option String
  title : Option String
  score : Nat
deriving DecidableEq

/-- Modelled from the spec: MatchData, the append-only match record (spec
section 3, MatchRecord). -/
structure MatchData where
  matched_id : Nat
  timestamp : Nat
  score : Nat
deriving DecidableEq

/-- From a QueryResult reference for MatchData (src/main.rs lines 220-224):
MatchData::new(value.id(), Utc::now(), value.score()). -/
def MatchData.ofQueryResult (now : Nat) (value : QueryResult) : MatchData :=
  { matched_id := value.id, timestamp := now, score := value.score }

/-- Modelled from the spec: Metadata, the per-audio metadata record (spec
section 3, MetadataRecord). -/
structure Metadata where
  id : Nat
  timestamp : Nat
  kind : AudioKind
  artist : String
  title : String
deriving DecidableEq

/-- to_metadata (src/main.rs lines 280-288). -/
def SegmentDownloadInfo.to_metadata (info : SegmentDownloadInfo) (id : Nat) (now : Nat) :
    Metadata :=
  { id := id, timestamp := now, kind := AudioKind.ofSuggested info.kind,
    artist := info.artist, title := info.title }

/-- One audio row as persisted by the workflow: main.rs stores the content
type string returned by download as the format. -/
structure AudioRow where
  id : Nat
  format : String
  bytes : List Nat
deriving DecidableEq

/-- The observable state the workflow touches: the three stores, the
identifiers drawn from Uuid::new_v4 and the inserts sent to emysound. -/
structure IngestState where
  audio : List AudioRow
  metadata : List Metadata
  matchRows : List MatchData
  fpInserts : List Nat
  generatedIds : List Nat
deriving DecidableEq

/-- What the environment answers for one segment of the batch: the download
outcome, whether the lofty tag probe succeeds, the fingerprint query
answer (Option.none when the query itself fails), whether the emysound
insert and each store insert succeed, the index of the first failing match
insert if any, the identifier Uuid::new_v4 would draw, and the clock. -/
structure SegmentEnv where
  info : SegmentDownloadInfo
  downloadResult : Option (String × List Nat)
  probeOk : Bool
  queryResult : Option (List QueryResult)
  fpInsertOk : Bool
  audioInsertOk : Bool
  metadataInsertOk : Bool
  matchInsertFailAt : Option Nat
  freshId : Nat
  now : Nat
deriving DecidableEq

inductive PipelineError where
  | probe
  | query
  | fpInsert
  | audioInsert
  | metadataInsert
  | matchInsert
deriving DecidableEq

/-- The match branch (src/main.rs lines 172-198): every match is turned
into a MatchData and inserted; the collect into a Result stops at the first
failing insert and propagates it.  On an error the rows already written
before the failure stay in the store, but the loop aborts; no claim looks
at the state after an abort, so the error result carries no state. -/
def insertMatches (now : Nat) (failAt : Option Nat) (st : IngestState)
    (ms : List QueryResult) : Except PipelineError IngestState :=
  match failAt with
  | Option.none =>
    .ok { st with matchRows := st.matchRows ++ ms.map (MatchData.ofQueryResult now) }
  | some k =>
    if k < ms.length then .error .matchInsert
    else .ok { st with matchRows := st.matchRows ++ ms.map (MatchData.ofQueryResult now) }

/-- The per-segment body of the while loop (src/main.rs lines 133-204).  A
failed download is only logged and the loop moves on; every other failure
escapes through a question mark operator, out of the loop and out of main.
On an empty query result a fresh identifier is drawn, the segment is
inserted into emysound, then one audio row and one metadata row are
written; on a nonempty result one match row per reported match is written
and no record is created. -/
def processOne (st : IngestState) (env : SegmentEnv) : Except PipelineError IngestState :=
  match env.downloadResult with
  | Option.none => .ok st
  | some fb =>
    if env.probeOk then
      match env.queryResult with
      | Option.none => .error .query
      | some ms =>
        match ms with
        | [] =>
          let st1 : IngestState :=
            { st with generatedIds := st.generatedIds ++ [env.freshId] }
          if env.fpInsertOk then
            let st2 : IngestState :=
              { st1 with fpInserts := st1.fpInserts ++ [env.freshId] }
            if env.audioInsertOk then
              let st3 : IngestState :=
                { st2 with audio := st2.audio ++ [{ id := env.freshId, format := fb.1, bytes := fb.2 }] }
              if env.metadataInsertOk then
                .ok { st3 with metadata := st3.metadata ++ [env.info.to_metadata env.freshId env.now] }
              else .error .metadataInsert
            else .error .audioInsert
          else .error .fpInsert
        | _ :: _ => insertMatches env.now env.matchInsertFailAt st ms
    else .error .probe

/-- The while loop over the candidate batch of one cycle (src/main.rs lines
132-205): segments are processed in listed order; the first escaping error
aborts the loop. -/
def processCycle (st : IngestState) : List SegmentEnv → Except PipelineError IngestState
  | [] => .ok st
  | e :: rest =>
    match processOne st e with
    | .ok st1 => processCycle st1 rest
    | .error msg => .error msg

/-! ## The audio store (src/storage/audio.rs) -/

inductive AudioFormat where
  | aac
deriving DecidableEq

/-- AudioData (src/storage/audio.rs lines 13-23).  Uuid is represented by a
natural number; Uuid::to_string is injective, so rows can be keyed by the
identifier itself. -/
structure AudioData where
  id : Nat
  format : AudioFormat
  bytes : List Nat
deriving DecidableEq

inductive StorageError where
  | duplicateId
  | noResults
deriving DecidableEq

/-- AudioStorage: the audio table, rows in rowid order. -/
structure AudioStorage where
  rows : List AudioData
deriving DecidableEq

/-- insert (src/storage/audio.rs lines 75-100): a transaction inserts a row
under the STRING PRIMARY KEY id with a zeroblob of the right size, then
writes the bytes into the blob; a duplicate id violates the primary key,
the INSERT fails and the transaction never commits.  The committed effect
is one appended row carrying exactly the given bytes. -/
def AudioStorage.insert (db : AudioStorage) (data : AudioData) :
    Except StorageError AudioStorage :=
  if db.rows.any (fun r => r.id == data.id) then .error .duplicateId
  else .ok { rows := db.rows ++ [data] }

/-- get (src/storage/audio.rs lines 102-120): SELECT the first row whose id
matches, parse the stored id back and read the whole blob. -/
def AudioStorage.get (db : AudioStorage) (id : Nat) : Except StorageError AudioData :=
  match db.rows.find? (fun r => r.id == id) with
  | some r => .ok r
  | Option.none => .error .noResults

/-! ## Theorems -/

theorem runFilter_spec : ∀ (ns : List Nat) (f : SegmentNumberFilter),
    (∀ m ∈ (runFilter f ns).1, f.last_seen_number < m)
    ∧ List.Sorted (· < ·) (runFilter f ns).1
    ∧ f.last_seen_number ≤ (runFilter f ns).2.last_seen_number
    ∧ (∀ m ∈ (runFilter f ns).1, m ≤ (runFilter f ns).2.last_seen_number)
  | [], f => by simp [runFilter]
  | n :: ns, f => by
    by_cases h : n ≤ f.last_seen_number
    · have hnd : f.need_download n = (false, f) := by
        simp [SegmentNumberFilter.need_download, h]
      have ih := runFilter_spec ns f
      simp only [runFilter, hnd]
      exact ih
    · have hnd : f.need_download n = (true, { last_seen_number := n }) := by
        simp [SegmentNumberFilter.need_download, h]
      have ih := runFilter_spec ns { last_seen_number := n }
      simp only [runFilter, hnd]
      push_neg at h
      obtain ⟨ih1, ih2, ih3, ih4⟩ := ih
      refine ⟨?_, ?_, ?_, ?_⟩
      · intro m hm
        rcases List.mem_cons.1 hm with rfl | hm
        · exact h
        · exact h.trans (ih1 m hm)
      · exact List.sorted_cons.2 ⟨fun b hb => ih1 b hb, ih2⟩
      · exact le_of_lt (lt_of_lt_of_le h ih3)
      · intro m hm
        rcases List.mem_cons.1 hm with rfl | hm
        · exact ih3
        · exact ih4 m hm

/-- C2: need_download returns true and moves the watermark to the segment
number exactly when the number is strictly above the current watermark, and
otherwise returns false leaving it unchanged; hence, starting from
watermark 0, the accepted numbers of any call sequence are strictly
increasing (so no number is accepted twice) and every accepted number stays
bounded by the watermark, so any number at most the highest accepted one is
rejected. -/
theorem need_download_watermark_correct :
    (∀ (f : SegmentNumberFilter) (n : Nat),
        ((f.need_download n).1 = true ↔ f.last_seen_number < n)
        ∧ (f.need_download n).2.last_seen_number =
            (if f.last_seen_number < n then n else f.last_seen_number))
    ∧ (∀ ns : List Nat,
        List.Sorted (· < ·) (runFilter SegmentNumberFilter.new ns).1
        ∧ (runFilter SegmentNumberFilter.new ns).1.Nodup
        ∧ (∀ m ∈ (runFilter SegmentNumberFilter.new ns).1,
            m ≤ (runFilter SegmentNumberFilter.new ns).2.last_seen_number)) := by
  constructor
  · intro f n
    constructor
    · constructor
      · intro h
        by_contra hle
        push_neg at hle
        simp [SegmentNumberFilter.need_download, hle] at h
      · intro h
        simp [SegmentNumberFilter.need_download, Nat.not_le.2 h]
    · by_cases h : f.last_seen_number < n
      · simp [SegmentNumberFilter.need_download, Nat.not_le.2 h, h]
      · push_neg at h
        simp [SegmentNumberFilter.need_download, h, Nat.not_lt.2 h]
  · intro ns
    obtain ⟨h1, h2, h3, h4⟩ := runFilter_spec ns SegmentNumberFilter.new
    exact ⟨h2, h2.nodup, h4⟩

theorem need_download_watermark_correct_witness :
    ((SegmentNumberFilter.new.need_download 5).1 = true)
    ∧ (runFilter SegmentNumberFilter.new [5, 3, 7, 5]).1.Nodup
    ∧ 7 ≤ (runFilter SegmentNumberFilter.new [5, 3, 7, 5]).2.last_seen_number :=
  ⟨(need_download_watermark_correct.1 SegmentNumberFilter.new 5).1.mpr (by decide),
   (need_download_watermark_correct.2 [5, 3, 7, 5]).2.1,
   (need_download_watermark_correct.2 [5, 3, 7, 5]).2.2 7 (by decide)⟩

theorem is_music_facts (i : KostaRadioSegmentInfo) (h : i.is_music = true) :
    (i.song_spot = 'M' ∨ i.song_spot = 'F')
    ∧ 90000000000 < i.length
    ∧ (0 < i.media_base_id ∨ 0 < i.itunes_track_id
        ∨ (0 < i.amg_artist_id ∧ 0 < i.amg_track_id)
        ∨ 0 < i.tp_id ∨ i.amg_artwork_url.isSome = true) := by
  simp only [KostaRadioSegmentInfo.is_music, Bool.and_eq_true, Bool.or_eq_true,
    beq_iff_eq, decide_eq_true_eq] at h
  tauto

theorem is_talk_facts (i : KostaRadioSegmentInfo) (h : i.is_talk = true) :
    i.song_spot = 'T' ∧ i.media_base_id = 0 ∧ i.itunes_track_id = 0
    ∧ i.amg_artist_id = 0 ∧ i.amg_track_id = 0 ∧ i.ta_id = 0 ∧ i.tp_id = 0
    ∧ i.amg_artwork_url = Option.none ∧ i.spot_instance_id = Option.none
    ∧ i.length = 0 := by
  simp only [KostaRadioSegmentInfo.is_talk, Bool.and_eq_true, beq_iff_eq,
    Option.isNone_iff_eq_none] at h
  tauto

theorem is_advertisment_facts (i : KostaRadioSegmentInfo) (h : i.is_advertisment = true) :
    i.song_spot = 'F' ∧ i.media_base_id = 0 ∧ i.itunes_track_id = 0
    ∧ i.amg_artist_id = 0 ∧ i.amg_track_id = -1 ∧ i.ta_id = 0 ∧ i.tp_id = 0
    ∧ i.cartcut_id = 0 ∧ i.amg_artwork_url = Option.none
    ∧ i.spot_instance_id.isSome = true := by
  simp only [KostaRadioSegmentInfo.is_advertisment, Bool.and_eq_true, beq_iff_eq,
    Option.isNone_iff_eq_none] at h
  tauto

/-- C4: over all possible field combinations of a parsed record, the three
positive classification predicates are pairwise mutually exclusive. -/
theorem classification_mutually_exclusive (i : KostaRadioSegmentInfo) :
    (i.is_music && i.is_talk) = false
    ∧ (i.is_music && i.is_advertisment) = false
    ∧ (i.is_talk && i.is_advertisment) = false := by
  refine ⟨?_, ?_, ?_⟩
  · cases hm : i.is_music
    · simp
    · cases ht : i.is_talk
      · simp
      · exfalso
        have h1 := (is_music_facts i hm).2.1
        have h2 := (is_talk_facts i ht).2.2.2.2.2.2.2.2.2
        omega
  · cases hm : i.is_music
    · simp
    · cases ha : i.is_advertisment
      · simp
      · exfalso
        have h1 := (is_music_facts i hm).2.2
        obtain ⟨-, hmb, hit, haa, hat, -, htp, -, hurl, -⟩ := is_advertisment_facts i ha
        rcases h1 with h | h | ⟨h, h'⟩ | h | h
        · omega
        · omega
        · omega
        · omega
        · rw [hurl] at h
          simp at h
  · cases ht : i.is_talk
    · simp
    · cases ha : i.is_advertisment
      · simp
      · exfalso
        have h1 := (is_talk_facts i ht).1
        have h2 := (is_advertisment_facts i ha).1
        rw [h1] at h2
        exact absurd h2 (by decide)

theorem find_append_right {p : AudioData → Bool} : ∀ (l : List AudioData) (d : AudioData),
    (∀ x ∈ l, p x = false) → p d = true → (l ++ [d]).find? p = some d
  | [], d, _, hd => by simp [List.find?, hd]
  | x :: xs, d, hl, hd => by
    have hx := hl x (by simp)
    simp only [List.cons_append, List.find?, hx]
    exact find_append_right xs d (fun y hy => hl y (by simp [hy])) hd

/-- C9: a successful insert of an audio record followed by a get of the same
identifier returns the record back, bytes and format identical. -/
theorem audio_roundtrip (db db1 : AudioStorage) (data : AudioData)
    (h : db.insert data = .ok db1) : db1.get data.id = .ok data := by
  unfold AudioStorage.insert at h
  by_cases hdup : db.rows.any (fun r => r.id == data.id)
  · simp [hdup] at h
  · rw [Bool.not_eq_true] at hdup
    simp only [hdup, Bool.false_eq_true, if_false, Except.ok.injEq] at h
    subst h
    unfold AudioStorage.get
    have hnone : ∀ x ∈ db.rows, (fun r : AudioData => r.id == data.id) x = false := by
      intro x hx
      have := List.any_eq_false.1 hdup x hx
      simpa using this
    rw [find_append_right db.rows data hnone (by simp)]

theorem audio_roundtrip_witness :
    (AudioStorage.mk []).insert (AudioData.mk 3 .aac [1, 2, 3]) =
        .ok (AudioStorage.mk [AudioData.mk 3 .aac [1, 2, 3]])
    ∧ (AudioStorage.mk [AudioData.mk 3 .aac [1, 2, 3]]).get 3 =
        .ok (AudioData.mk 3 .aac [1, 2, 3]) :=
  ⟨by rfl,
   audio_roundtrip (AudioStorage.mk []) (AudioStorage.mk [AudioData.mk 3 .aac [1, 2, 3]])
     (AudioData.mk 3 .aac [1, 2, 3]) (by rfl)⟩

/-- C5: for a segment with a parseable uri whose title text fails the
metadata grammar, the candidate decision keeps the segment as an
advertisement with the sentinel artist and title exactly when the text
contains the ad insertion marker, and drops it otherwise. -/
theorem grammar_fallback_advertisement (t : String)
    (h : KostaRadioSegmentInfo.tryFrom t = Option.none) :
    (strContains t adMarker = true →
      segmentDecision true (some t) =
        some { artist := advertSentinel, title := advertSentinel,
               kind := .advertisement })
    ∧ (strContains t adMarker = false →
      segmentDecision true (some t) = Option.none) := by
  constructor
  · intro hc
    simp [segmentDecision, h, hc]
  · intro hc
    simp [segmentDecision, h, hc]

def adFallbackSample : String := "x,adContext=y".data.asString

def noMarkerSample : String := "hello".data.asString

theorem grammar_fallback_advertisement_witness :
    segmentDecision true (some adFallbackSample) =
        some { artist := advertSentinel, title := advertSentinel,
               kind := .advertisement }
    ∧ segmentDecision true (some noMarkerSample) = Option.none :=
  ⟨(grammar_fallback_advertisement adFallbackSample (by decide)).1 (by decide),
   (grammar_fallback_advertisement noMarkerSample (by decide)).2 (by decide)⟩

/-- C6 counterexample: a response with status 404, a content-type header
and a body makes download return the content type and the bytes instead of
failing, so a non-success status alone is not an error. -/
theorem download_ignores_status_cex :
    download (some { status := 404,
                     content_type := some [116, 101, 120, 116],
                     body := some [60, 62] }) =
      .ok (([116, 101, 120, 116].map Char.ofNat).asString, [60, 62]) := by
  rfl

/-- C6 amended: download fails exactly on a transport failure, a missing
content-type header, a content-type value that is not visible ASCII, or a
body read failure; otherwise it returns the content type together with the
bytes, whatever the HTTP status. -/
theorem download_error_conditions (r : HttpResponse) (bs b : List Nat) (ct : String) :
    (download Option.none = .error .transport)
    ∧ (r.content_type = Option.none → download (some r) = .error .noContentType)
    ∧ (r.content_type = some bs → headerToStr bs = Option.none →
        download (some r) = .error .contentTypeNotAscii)
    ∧ (r.content_type = some bs → headerToStr bs = some ct → r.body = Option.none →
        download (some r) = .error .bodyRead)
    ∧ (r.content_type = some bs → headerToStr bs = some ct → r.body = some b →
        download (some r) = .ok (ct, b)) := by
  refine ⟨rfl, ?_, ?_, ?_, ?_⟩
  · intro h
    simp [download, h]
  · intro h1 h2
    simp [download, h1, h2]
  · intro h1 h2 h3
    simp [download, h1, h2, h3]
  · intro h1 h2 h3
    simp [download, h1, h2, h3]

theorem download_error_conditions_witness :
    (download (some { status := 200, content_type := Option.none, body := some [1] }) =
        .error .noContentType)
    ∧ (download (some { status := 200, content_type := some [255], body := some [1] }) =
        .error .contentTypeNotAscii)
    ∧ (download (some { status := 500, content_type := some [97], body := some [9] }) =
        .ok (([97].map Char.ofNat).asString, [9])) :=
  ⟨(download_error_conditions { status := 200, content_type := Option.none, body := some [1] }
      [] [] "".data.asString).2.1 rfl,
   (download_error_conditions { status := 200, content_type := some [255], body := some [1] }
      [255] [] "".data.asString).2.2.1 rfl (by decide),
   (download_error_conditions { status := 500, content_type := some [97], body := some [9] }
      [97] [9] (([97].map Char.ofNat).asString)).2.2.2.2 rfl (by decide) rfl⟩

/-- C8 counterexample: a playlist advertising a target duration of 4
seconds but listing segments of 4 and 8 seconds sleeps 6 seconds, not 2:
the sleep is computed from MediaPlaylist::duration, the sum of the listed
segment durations, not from the target duration. -/
theorem sleep_not_target_duration_cex :
    sleepNanos { target_duration := 4000000000,
                 segment_durations := [4000000000, 8000000000] } = 6000000000
    ∧ ({ target_duration := 4000000000,
         segment_durations := [4000000000, 8000000000] } : MediaPlaylist).target_duration / 2
        = 2000000000 := by
  constructor <;> rfl

/-- C8 amended: after each cycle the process sleeps for half of the total
duration of the playlist, the sum of the durations of all listed segments. -/
theorem sleep_half_total_duration (p : MediaPlaylist) :
    sleepNanos p = p.segment_durations.sum / 2 := by
  unfold sleepNanos MediaPlaylist.duration
  rw [List.sum_eq_foldr]

/-- C10 counterexample: a 200 response whose content-type header holds the
byte 255 differs from the required content type, yet the iteration is
fatal: HeaderValue::to_str fails under a question mark and main returns the
error, instead of skipping the cycle body. -/
theorem content_type_non_ascii_fatal_cex :
    cycleStep 200 (some [255]) = .fatal
    ∧ cycleStep 200 (some [255]) ≠ .skipRefetch := by
  constructor
  · rfl
  · decide

/-- C10 amended: a 200 manifest response whose content-type header is
absent, or present with a visible-ASCII value different from the exact
playlist content type, neither terminates the process nor processes
segments nor sleeps: the cycle body is skipped and the manifest refetched;
but a content-type value that is not visible ASCII is fatal. -/
theorem content_type_mismatch_skips_cycle (bs : List Nat) (s : String) :
    (cycleStep 200 Option.none = .skipRefetch)
    ∧ (headerToStr bs = some s → s ≠ playlistContentType →
        cycleStep 200 (some bs) = .skipRefetch)
    ∧ (headerToStr bs = Option.none → cycleStep 200 (some bs) = .fatal) := by
  refine ⟨rfl, ?_, ?_⟩
  · intro h1 h2
    simp [cycleStep, h1, h2]
  · intro h1
    simp [cycleStep, h1]

theorem content_type_mismatch_skips_cycle_witness :
    cycleStep 200 (some [116]) = .skipRefetch
    ∧ cycleStep 200 (some [128]) = .fatal :=
  ⟨(content_type_mismatch_skips_cycle [116] (([116].map Char.ofNat).asString)).2.1
      (by decide) (by decide),
   (content_type_mismatch_skips_cycle [128] (([128].map Char.ofNat).asString)).2.2
      (by decide)⟩

/-- C1: for a segment that survived filtering and classification and whose
download gave format and bytes, when every collaborator call succeeds: an
empty fingerprint query result draws exactly one fresh identifier, sends
exactly one emysound insert for it, and persists exactly one audio row and
one metadata row under it, touching no match row; a nonempty result of n
matches creates no audio or metadata row and appends exactly the n match
rows, each carrying the reported matched id and score with the current
timestamp. -/
theorem dedup_workflow_correct (st : IngestState) (env : SegmentEnv)
    (fmt : String) (bytes : List Nat)
    (hdl : env.downloadResult = some (fmt, bytes))
    (hprobe : env.probeOk = true)
    (hfp : env.fpInsertOk = true)
    (haudio : env.audioInsertOk = true)
    (hmeta : env.metadataInsertOk = true)
    (hmatch : env.matchInsertFailAt = Option.none) :
    (env.queryResult = some [] →
      processOne st env = .ok
        { audio := st.audio ++ [{ id := env.freshId, format := fmt, bytes := bytes }]
          metadata := st.metadata ++ [env.info.to_metadata env.freshId env.now]
          matchRows := st.matchRows
          fpInserts := st.fpInserts ++ [env.freshId]
          generatedIds := st.generatedIds ++ [env.freshId] })
    ∧ (∀ ms : List QueryResult, ms ≠ [] → env.queryResult = some ms →
      processOne st env = .ok
        { st with matchRows := st.matchRows ++ ms.map (MatchData.ofQueryResult env.now) }) := by
  constructor
  · intro hq
    simp [processOne, hdl, hprobe, hq, hfp, haudio, hmeta]
  · intro ms hms hq
    cases ms with
    | nil => exact absurd rfl hms
    | cons m rest => simp [processOne, hdl, hprobe, hq, insertMatches, hmatch]

def sampleInfo : SegmentDownloadInfo :=
  { artist := "a".data.asString, title := "t".data.asString, kind := .music }

def envNoMatches : SegmentEnv :=
  { info := sampleInfo, downloadResult := some ("audio/aacp".data.asString, [1, 2]),
    probeOk := true, queryResult := some [], fpInsertOk := true, audioInsertOk := true,
    metadataInsertOk := true, matchInsertFailAt := Option.none, freshId := 7, now := 5 }

def envTwoMatches : SegmentEnv :=
  { info := sampleInfo, downloadResult := some ("audio/aacp".data.asString, [1, 2]),
    probeOk := true,
    queryResult := some [{ id := 11, artist := Option.none, title := Option.none, score := 80 },
                         { id := 12, artist := Option.none, title := Option.none, score := 60 }],
    fpInsertOk := true, audioInsertOk := true,
    metadataInsertOk := true, matchInsertFailAt := Option.none, freshId := 7, now := 5 }

def emptyIngest : IngestState :=
  { audio := [], metadata := [], matchRows := [], fpInserts := [], generatedIds := [] }

theorem dedup_workflow_correct_witness :
    (processOne emptyIngest envNoMatches = .ok
      { audio := [{ id := 7, format := "audio/aacp".data.asString, bytes := [1, 2] }]
        metadata := [sampleInfo.to_metadata 7 5]
        matchRows := []
        fpInserts := [7]
        generatedIds := [7] })
    ∧ (processOne emptyIngest envTwoMatches = .ok
      { audio := [], metadata := []
        matchRows := [{ matched_id := 11, timestamp := 5, score := 80 },
                      { matched_id := 12, timestamp := 5, score := 60 }]
        fpInserts := [], generatedIds := [] }) :=
  ⟨(dedup_workflow_correct emptyIngest envNoMatches
      ("audio/aacp".data.asString) [1, 2] rfl rfl rfl rfl rfl rfl).1 rfl,
   (dedup_workflow_correct emptyIngest envTwoMatches
      ("audio/aacp".data.asString) [1, 2] rfl rfl rfl rfl rfl rfl).2
      [{ id := 11, artist := Option.none, title := Option.none, score := 80 },
       { id := 12, artist := Option.none, title := Option.none, score := 60 }]
      (by simp) rfl⟩

def envProbeFails : SegmentEnv :=
  { info := sampleInfo, downloadResult := some ("audio/aacp".data.asString, [3]),
    probeOk := false, queryResult := some [], fpInsertOk := true, audioInsertOk := true,
    metadataInsertOk := true, matchInsertFailAt := Option.none, freshId := 8, now := 6 }

/-- C3 counterexample: a batch of two segments where only the first fails
its tag probe.  The claim says the failure stays contained and the second
segment is still processed; instead the loop propagates the probe error,
the cycle aborts and the second segment, which on its own would have been
ingested, is never processed. -/
theorem cycle_aborts_on_probe_failure_cex :
    processCycle emptyIngest [envProbeFails, envNoMatches] = .error .probe
    ∧ processOne emptyIngest envNoMatches = .ok
      { audio := [{ id := 7, format := "audio/aacp".data.asString, bytes := [1, 2] }]
        metadata := [sampleInfo.to_metadata 7 5]
        matchRows := []
        fpInserts := [7]
        generatedIds := [7] } := by
  constructor <;> rfl

/-- C3 amended: only a download failure is contained to its segment (the
segment is skipped with the state untouched and the rest of the batch still
runs); a failure of the tag probe, of the fingerprint query or insert, or
of any store write propagates out of the loop and aborts the cycle and the
process. -/
theorem per_segment_failure_policy (st : IngestState) (env : SegmentEnv)
    (rest : List SegmentEnv) (fb : String × List Nat) :
    (env.downloadResult = Option.none →
      processOne st env = .ok st
      ∧ processCycle st (env :: rest) = processCycle st rest)
    ∧ (env.downloadResult = some fb → env.probeOk = false →
        processCycle st (env :: rest) = .error .probe)
    ∧ (env.downloadResult = some fb → env.probeOk = true →
        env.queryResult = Option.none →
        processCycle st (env :: rest) = .error .query)
    ∧ (env.downloadResult = some fb → env.probeOk = true →
        env.queryResult = some [] → env.fpInsertOk = false →
        processCycle st (env :: rest) = .error .fpInsert)
    ∧ (env.downloadResult = some fb → env.probeOk = true →
        env.queryResult = some [] → env.fpInsertOk = true →
        env.audioInsertOk = false →
        processCycle st (env :: rest) = .error .audioInsert)
    ∧ (env.downloadResult = some fb → env.probeOk = true →
        env.queryResult = some [] → env.fpInsertOk = true →
        env.audioInsertOk = true → env.metadataInsertOk = false →
        processCycle st (env :: rest) = .error .metadataInsert)
    ∧ (∀ (m : QueryResult) (ms : List QueryResult) (k : Nat),
        env.downloadResult = some fb → env.probeOk = true →
        env.queryResult = some (m :: ms) → env.matchInsertFailAt = some k →
        k < (m :: ms).length →
        processCycle st (env :: rest) = .error .matchInsert) := by
  refine ⟨?_, ?_, ?_, ?_, ?_, ?_, ?_⟩
  · intro h
    have h1 : processOne st env = .ok st := by simp [processOne, h]
    exact ⟨h1, by simp [processCycle, h1]⟩
  · intro h hp
    have h1 : processOne st env = .error .probe := by simp [processOne, h, hp]
    simp [processCycle, h1]
  · intro h hp hq
    have h1 : processOne st env = .error .query := by simp [processOne, h, hp, hq]
    simp [processCycle, h1]
  · intro h hp hq hf
    have h1 : processOne st env = .error .fpInsert := by simp [processOne, h, hp, hq, hf]
    simp [processCycle, h1]
  · intro h hp hq hf ha
    have h1 : processOne st env = .error .audioInsert := by
      simp [processOne, h, hp, hq, hf, ha]
    simp [processCycle, h1]
  · intro h hp hq hf ha hm
    have h1 : processOne st env = .error .metadataInsert := by
      simp [processOne, h, hp, hq, hf, ha, hm]
    simp [processCycle, h1]
  · intro m ms k h hp hq hk hlen
    have h1 : processOne st env = .error .matchInsert := by
      simp only [processOne, h, hp, hq, insertMatches, hk]
      rw [if_pos hlen]
      simp
    simp [processCycle, h1]

def envDownloadFails : SegmentEnv :=
  { info := sampleInfo, downloadResult := Option.none,
    probeOk := true, queryResult := some [], fpInsertOk := true, audioInsertOk := true,
    metadataInsertOk := true, matchInsertFailAt := Option.none, freshId := 9, now := 6 }

theorem per_segment_failure_policy_witness :
    processCycle emptyIngest [envDownloadFails, envNoMatches] =
      processCycle emptyIngest [envNoMatches]
    ∧ processCycle emptyIngest [envProbeFails] = .error .probe :=
  ⟨((per_segment_failure_policy emptyIngest envDownloadFails [envNoMatches]
      ("".data.asString, [])).1 rfl).2,
   (per_segment_failure_policy emptyIngest envProbeFails []
      ("audio/aacp".data.asString, [3])).2.1 rfl rfl⟩

theorem convertCaps_facts (caps : RawCaps) (info : KostaRadioSegmentInfo)
    (h : convertCaps caps = some info) :
    parseI64 caps.mediaBaseCap = some info.media_base_id
    ∧ parseI64 caps.itunesCap = some info.itunes_track_id
    ∧ parseI64 caps.amgTrackCap = some info.amg_track_id
    ∧ parseI64 caps.amgArtistCap = some info.amg_artist_id
    ∧ parseI64 caps.taCap = some info.ta_id
    ∧ parseI64 caps.tpCap = some info.tp_id
    ∧ parseI64 caps.cartcutCap = some info.cartcut_id
    ∧ parseLengthNanos caps.lengthCap = some info.length
    ∧ parseI64 caps.unsCap = some info.uns_id := by
  unfold convertCaps at h
  cases h0 : caps.spotCap.head? with
  | none => rw [h0] at h; exact absurd h (by simp)
  | some spot =>
    rw [h0] at h
    cases h1 : parseI64 caps.mediaBaseCap with
    | none => rw [h1] at h; exact absurd h (by simp)
    | some mb =>
      rw [h1] at h
      cases h2 : parseI64 caps.itunesCap with
      | none => rw [h2] at h; exact absurd h (by simp)
      | some itv =>
        rw [h2] at h
        cases h3 : parseI64 caps.amgTrackCap with
        | none => rw [h3] at h; exact absurd h (by simp)
        | some atv =>
          rw [h3] at h
          cases h4 : parseI64 caps.amgArtistCap with
          | none => rw [h4] at h; exact absurd h (by simp)
          | some aav =>
            rw [h4] at h
            cases h5 : parseI64 caps.taCap with
            | none => rw [h5] at h; exact absurd h (by simp)
            | some tav =>
              rw [h5] at h
              cases h6 : parseI64 caps.tpCap with
              | none => rw [h6] at h; exact absurd h (by simp)
              | some tpv =>
                rw [h6] at h
                cases h7 : parseI64 caps.cartcutCap with
                | none => rw [h7] at h; exact absurd h (by simp)
                | some ccv =>
                  rw [h7] at h
                  cases h8 : parseLengthNanos caps.lengthCap with
                  | none => rw [h8] at h; exact absurd h (by simp)
                  | some lenv =>
                    rw [h8] at h
                    cases h9 : parseI64 caps.unsCap with
                    | none => rw [h9] at h; exact absurd h (by simp)
                    | some unsv =>
                      rw [h9] at h
                      obtain rfl := (Option.some.inj h).symm
                      exact ⟨rfl, rfl, rfl, rfl, rfl, rfl, rfl, rfl, rfl⟩

/-- C7: a parsed record is produced only if the text contains a substring
matching the grammar, the fourteen captured tokens of its leftmost match
being recorded by captures (a text with no match never produces a record),
and on success every integer field of the record, and its length, equals
the successful parse of the corresponding captured token. -/
theorem tryFrom_grammar_capture :
    (∀ (s : String) (info : KostaRadioSegmentInfo),
        KostaRadioSegmentInfo.tryFrom s = some info →
        ∃ caps : RawCaps, captures s = some caps
          ∧ parseI64 caps.mediaBaseCap = some info.media_base_id
          ∧ parseI64 caps.itunesCap = some info.itunes_track_id
          ∧ parseI64 caps.amgTrackCap = some info.amg_track_id
          ∧ parseI64 caps.amgArtistCap = some info.amg_artist_id
          ∧ parseI64 caps.taCap = some info.ta_id
          ∧ parseI64 caps.tpCap = some info.tp_id
          ∧ parseI64 caps.cartcutCap = some info.cartcut_id
          ∧ parseLengthNanos caps.lengthCap = some info.length
          ∧ parseI64 caps.unsCap = some info.uns_id)
    ∧ (∀ s : String, captures s = Option.none →
        KostaRadioSegmentInfo.tryFrom s = Option.none) := by
  constructor
  · intro s info h
    unfold KostaRadioSegmentInfo.tryFrom at h
    cases hcaps : captures s with
    | none => rw [hcaps] at h; exact absurd h (by simp)
    | some caps =>
      rw [hcaps] at h
      exact ⟨caps, rfl, convertCaps_facts caps info h⟩
  · intro s h
    unfold KostaRadioSegmentInfo.tryFrom
    rw [h]

/-- A well formed embedded title text, in the exact shape the grammar
expects. -/
def validMetaText : String :=
  "title=\"A\",artist=\"B\",url=\"song_spot=\\\"M\\\" MediaBaseId=\\\"1\\\" itunesTrackId=\\\"0\\\" amgTrackId=\\\"0\\\" amgArtistId=\\\"0\\\" TAID=\\\"0\\\" TPID=\\\"0\\\" cartcutId=\\\"0\\\" amgArtworkURL=\\\"\\\" length=\\\"00:01:40\\\" unsID=\\\"0\\\" spotInstanceId=\\\"z\\\"\"\""

/-- The record validMetaText parses to. -/
def parsedValid : KostaRadioSegmentInfo :=
  { title := "A".data.asString
    artist := "B".data.asString
    song_spot := 'M'
    media_base_id := 1
    itunes_track_id := 0
    amg_track_id := 0
    amg_artist_id := 0
    ta_id := 0
    tp_id := 0
    cartcut_id := 0
    amg_artwork_url := Option.none
    length := 100000000000
    uns_id := 0
    spot_instance_id := Option.none }

/-- validMetaText followed by a stray character: the whole text is not a
grammar match, only a proper prefix of it is. -/
def overhangMetaText : String := (validMetaText.data ++ ['Z']).asString

/-- C7 counterexample: a text that does not fully match the grammar (the
pattern only consumes a proper prefix, leaving the stray final character)
still produces a parsed record, because Regex::captures searches for the
pattern anywhere inside the text instead of anchoring it. -/
theorem tryFrom_not_anchored_cex :
    (KostaRadioSegmentInfo.tryFrom overhangMetaText).isSome = true
    ∧ fullyMatchesGrammar overhangMetaText = false := by
  constructor <;> decide

theorem tryFrom_grammar_capture_witness :
    (∃ caps : RawCaps, captures validMetaText = some caps
      ∧ parseI64 caps.mediaBaseCap = some parsedValid.media_base_id
      ∧ parseI64 caps.itunesCap = some parsedValid.itunes_track_id
      ∧ parseI64 caps.amgTrackCap = some parsedValid.amg_track_id
      ∧ parseI64 caps.amgArtistCap = some parsedValid.amg_artist_id
      ∧ parseI64 caps.taCap = some parsedValid.ta_id
      ∧ parseI64 caps.tpCap = some parsedValid.tp_id
      ∧ parseI64 caps.cartcutCap = some parsedValid.cartcut_id
      ∧ parseLengthNanos caps.lengthCap = some parsedValid.length
      ∧ parseI64 caps.unsCap = some parsedValid.uns_id)
    ∧ KostaRadioSegmentInfo.tryFrom noMarkerSample = Option.none :=
  ⟨tryFrom_grammar_capture.1 validMetaText parsedValid (by decide),
   tryFrom_grammar_capture.2 noMarkerSample (by decide)⟩
